import Mathlib

/-!
Verification of the Ontime custom-field TTS demo client (src/app.js).

The development shallowly embeds the script: JavaScript values that
matter to the claims become an inductive `JsVal`, JS `Map`/object state
becomes association lists, and the callback-driven speech dispatcher
becomes an explicit step function on a small state record.
-/

namespace OntimeTTS

/-- A JavaScript value as far as the monitoring engine observes it:
either a string, or some non-string value (null, undefined, numbers,
objects, ...), distinguished by an opaque identity so that strict
equality between two non-string values is representable. -/
inductive JsVal where
  | str (s : String)
  | nonStr (id : Nat)
deriving DecidableEq

/-- The per-field monitoring configuration object
`{ enabled, threshold, voice, language }`. -/
structure MonitorConfig where
  enabled : Bool
  threshold : Nat
  voice : String
  language : String
deriving DecidableEq

/-- Numeric value of a decimal digit character. -/
def charDigit (c : Char) : Nat := c.toNat - '0'.toNat

/-- Decimal value of a list of digit characters. -/
def decimalVal (cs : List Char) : Nat := cs.foldl (fun n c => 10 * n + charDigit c) 0

/-- `String.prototype.trim`: drop whitespace from both ends. -/
def trimChars (cs : List Char) : List Char :=
  ((cs.dropWhile Char.isWhitespace).reverse.dropWhile Char.isWhitespace).reverse

/-- Which alternative of the time regex matched, with the captured
numeric groups. -/
inductive TimeMatch where
  | hms (h m s : Nat)
  | ms (m s : Nat)
deriving DecidableEq

/-- The anchored regex from `parseTimeToSeconds` in src/app.js, with
group values already converted by `parseInt(-, 10)`.  The first
alternative is 1-2 digit hours, a colon, exactly 2 digit minutes, a
colon, exactly 2 digit seconds; the second is 1-2 digit minutes, a
colon, exactly 2 digit seconds.  Anchoring on both sides means the
candidate list must have exactly the length of one alternative. -/
def matchTimePattern : List Char → Option TimeMatch
  | [h1, c1, m1, m2, c2, s1, s2] =>
    if h1.isDigit && (c1 == ':') && m1.isDigit && m2.isDigit && (c2 == ':')
        && s1.isDigit && s2.isDigit then
      some (TimeMatch.hms (charDigit h1) (10 * charDigit m1 + charDigit m2)
        (10 * charDigit s1 + charDigit s2))
    else none
  | [h1, h2, c1, m1, m2, c2, s1, s2] =>
    if h1.isDigit && h2.isDigit && (c1 == ':') && m1.isDigit && m2.isDigit
        && (c2 == ':') && s1.isDigit && s2.isDigit then
      some (TimeMatch.hms (10 * charDigit h1 + charDigit h2)
        (10 * charDigit m1 + charDigit m2) (10 * charDigit s1 + charDigit s2))
    else none
  | [m1, c1, s1, s2] =>
    if m1.isDigit && (c1 == ':') && s1.isDigit && s2.isDigit then
      some (TimeMatch.ms (charDigit m1) (10 * charDigit s1 + charDigit s2))
    else none
  | [m1, m2, c1, s1, s2] =>
    if m1.isDigit && m2.isDigit && (c1 == ':') && s1.isDigit && s2.isDigit then
      some (TimeMatch.ms (10 * charDigit m1 + charDigit m2)
        (10 * charDigit s1 + charDigit s2))
    else none
  | _ => none

/-- `parseTimeToSeconds` from src/app.js.  A non-string or empty input
is rejected up front; otherwise the trimmed string is matched against
the time regex and the captured groups are combined. -/
def parseTimeToSeconds : JsVal → Option Nat
  | JsVal.nonStr _ => none
  | JsVal.str s =>
    if s = "" then none
    else
      match matchTimePattern (trimChars s.data) with
      | some (TimeMatch.hms h m sec) => some (h * 3600 + m * 60 + sec)
      | some (TimeMatch.ms m sec) => some (m * 60 + sec)
      | none => none

example : parseTimeToSeconds (JsVal.str "1:23:45") = some 5025 := by decide
example : parseTimeToSeconds (JsVal.str " 12:34 ") = some 754 := by decide
example : parseTimeToSeconds (JsVal.str "1:99") = some 159 := by decide
example : parseTimeToSeconds (JsVal.str "1:5") = none := by decide
example : parseTimeToSeconds (JsVal.str "") = none := by decide
example : parseTimeToSeconds (JsVal.nonStr 0) = none := by decide

/-! ### Association-list model of JS `Map` and plain objects -/

/-- `Map.prototype.get` / object indexing: first binding wins (keys are
unique in every map the script builds). -/
def mapGet {α : Type} : List (String × α) → String → Option α
  | [], _ => none
  | (k, v) :: rest, key => if k = key then some v else mapGet rest key

/-- `Map.prototype.set` / object property assignment: replace an
existing binding in place, otherwise append. -/
def mapSet {α : Type} : List (String × α) → String → α → List (String × α)
  | [], key, v => [(key, v)]
  | (k, w) :: rest, key, v =>
    if k = key then (key, v) :: rest else (k, w) :: mapSet rest key v

/-- `Map.prototype.delete`: remove the binding for a key. -/
def mapDelete {α : Type} : List (String × α) → String → List (String × α)
  | [], _ => []
  | (k, w) :: rest, key => if k = key then rest else (k, w) :: mapDelete rest key

/-! ### Monitoring engine: `checkEventFields` -/

/-- A call handed to the speech dispatcher: `speakValue(fieldKey, seconds, config)`. -/
structure SpeakRequest where
  fieldKey : String
  seconds : Nat
  config : MonitorConfig
deriving DecidableEq

/-- `const eventId = event?.id || eventType`: the event id, falling back
to the role token (`"current"` / `"next"`) when the id is absent or the
empty string (both falsy). -/
def eventIdFor (id : Option String) (eventType : String) : String :=
  match id with
  | some i => if i = "" then eventType else i
  | none => eventType

/-- The composite previous-value cache key for an event/field pair. -/
def uniqueKey (eventId fieldKey : String) : String := eventId ++ "-" ++ fieldKey

/-- The body of the `Object.entries(customValues).forEach` callback in
`checkEventFields`, for a single field: returns the updated
previous-value cache and the dispatcher call, if any. -/
def checkOneField (monitoredFields : List (String × MonitorConfig)) (eventId : String)
    (previousValues : List (String × JsVal)) (fieldKey : String) (fieldValue : JsVal) :
    List (String × JsVal) × Option SpeakRequest :=
  match mapGet monitoredFields fieldKey with
  | none => (previousValues, none)
  | some config =>
    if !config.enabled then (previousValues, none)
    else if mapGet previousValues (uniqueKey eventId fieldKey) = some fieldValue then
      (previousValues, none)
    else
      let cache2 := mapSet previousValues (uniqueKey eventId fieldKey) fieldValue
      match fieldValue with
      | JsVal.nonStr _ => (cache2, none)
      | JsVal.str s =>
        if s = "" then (cache2, none)
        else
          match parseTimeToSeconds (JsVal.str s) with
          | none => (cache2, none)
          | some seconds =>
            if seconds > config.threshold then (cache2, none)
            else (cache2, some ⟨fieldKey, seconds, config⟩)

/-- `checkEventFields`: fold `checkOneField` over the entries of the
custom-value object, collecting dispatcher calls in order. -/
def checkEventFields (monitoredFields : List (String × MonitorConfig)) (eventId : String)
    (previousValues : List (String × JsVal)) (entries : List (String × JsVal)) :
    List (String × JsVal) × List SpeakRequest :=
  match entries with
  | [] => (previousValues, [])
  | (k, v) :: rest =>
    let step := checkOneField monitoredFields eventId previousValues k v
    let tail := checkEventFields monitoredFields eventId step.1 rest
    (tail.1, step.2.toList ++ tail.2)

/-! ### Speech dispatcher: `speakValue` as a step function

`speakValue` is callback code: the entry check runs synchronously, the
gate acquisition runs inside a 100 ms `setTimeout` callback, and the
gate release runs inside the utterance `onend` / `onerror` callbacks.
Since the page is single-threaded, each callback runs atomically; the
observable behaviour is the interleaving of these atomic events. -/

/-- The relevant mutable globals: the singleton `isSpeaking` gate, the
number of scheduled-but-unfired `setTimeout` callbacks from
`speakValue`, and the number of utterances currently in flight at the
platform engine. -/
structure SpeechState where
  isSpeaking : Bool
  pendingTimers : Nat
  inFlight : Nat
deriving DecidableEq

/-- Atomic events of the dispatcher. `call available` is an invocation
of `speakValue` (with the given engine availability); `timerFire throws`
is one scheduled 100 ms callback running (`throws` marks
`speechSynthesis.speak` raising, which the `catch` turns into an
immediate gate release); `utteranceDone` is `onend` / `onerror` firing
for an in-flight utterance; `ttsToggleOff` is the global TTS checkbox
being unchecked, which cancels the engine and clears the gate. -/
inductive SpeechEvent where
  | call (available : Bool)
  | timerFire (throws : Bool)
  | utteranceDone
  | ttsToggleOff
deriving DecidableEq

/-- One atomic event of `speakValue` and its callbacks, transcribed from
src/app.js lines 321-384 (and the toggle handler at lines 556-561). -/
def speechStep (s : SpeechState) : SpeechEvent → SpeechState
  | SpeechEvent.call available =>
    if !available then s
    else if s.isSpeaking then s
    else { s with inFlight := 0, pendingTimers := s.pendingTimers + 1 }
  | SpeechEvent.timerFire throws =>
    if s.pendingTimers = 0 then s
    else
      let s1 := { s with pendingTimers := s.pendingTimers - 1 }
      if s1.isSpeaking then s1
      else if throws then s1
      else { s1 with isSpeaking := true, inFlight := s1.inFlight + 1 }
  | SpeechEvent.utteranceDone =>
    if s.inFlight = 0 then s
    else { s with inFlight := s.inFlight - 1, isSpeaking := false }
  | SpeechEvent.ttsToggleOff => { s with inFlight := 0, isSpeaking := false }

/-- Initial state on page load: gate free, nothing scheduled, nothing
speaking. -/
def initSpeechState : SpeechState := ⟨false, 0, 0⟩

/-- The state reached after a sequence of dispatcher events. -/
def speechRun (events : List SpeechEvent) : SpeechState :=
  events.foldl speechStep initSpeechState

/-! ### Configuration persistence: `saveConfiguration` / `loadSavedConfiguration` -/

/-- `saveConfiguration`: build a plain object from the `monitoredFields`
map entries in order (`config[key] = value`); the JSON round-trip
through localStorage preserves this object verbatim. -/
def saveConfiguration (monitoredFields : List (String × MonitorConfig)) :
    List (String × MonitorConfig) :=
  monitoredFields.foldl (fun config kv => mapSet config kv.1 kv.2) []

/-- `loadSavedConfiguration`: for each entry of the stored object, set
it into `monitoredFields` only when the key still exists in the
`customFields` catalog. `monitored0` is the `monitoredFields` map at
load time; `catalog` is the key set of `customFields`. -/
def loadSavedConfiguration (catalog : List String)
    (stored : List (String × MonitorConfig))
    (monitored0 : List (String × MonitorConfig)) : List (String × MonitorConfig) :=
  stored.foldl
    (fun acc kv => if catalog.contains kv.1 then mapSet acc kv.1 kv.2 else acc)
    monitored0

/-! ### Field catalog fetch: `loadCustomFields` -/

/-- A custom-field definition `{ label, type, colour }`. -/
structure FieldDef where
  label : String
  fieldType : String
  colour : String
deriving DecidableEq

/-- The outcome of the one-time `fetch` of field definitions. -/
inductive FetchOutcome where
  | success (fields : List (String × FieldDef))
  | httpError (status : Nat) (body : String)
  | networkError
deriving DecidableEq

/-- The externally visible effects of one run of `loadCustomFields`:
the informational / error paragraph it writes into the fields
container (if any), whether it ran `populateAddFieldDropdown`, whether
it ran `renderFieldsConfiguration`, and whether it scheduled another
fetch attempt. -/
structure LoadFieldsEffects where
  message : Option String
  dropdownPopulated : Bool
  configRendered : Bool
  retried : Bool
deriving DecidableEq

/-- `loadCustomFields` from src/app.js lines 49-85, as the effects each
fetch outcome produces. Only the empty-success branch calls
`populateAddFieldDropdown`; the non-2xx and network-error branches
write a message and stop. No branch schedules a retry. -/
def loadCustomFields : FetchOutcome → LoadFieldsEffects
  | FetchOutcome.success fields =>
    if fields.length = 0 then
      { message := some "No custom fields found. Create some in Ontime settings first."
        dropdownPopulated := true, configRendered := false, retried := false }
    else
      { message := none, dropdownPopulated := true, configRendered := true
        retried := false }
  | FetchOutcome.httpError status _ =>
    { message := some ("Error loading custom fields (" ++ toString status
        ++ "). Check console for details.")
      dropdownPopulated := false, configRendered := false, retried := false }
  | FetchOutcome.networkError =>
    { message := some "Error loading custom fields. Check console for details."
      dropdownPopulated := false, configRendered := false, retried := false }

/-! ### Socket dispatch: `onmessage` and `handleOntimePayload` -/

/-- The object spread `{ ...a, ...b }`: start from `a` and assign every
property of `b` over it, so keys of `b` overwrite and the rest of `a`
survives. -/
def spreadMerge (a b : List (String × JsVal)) : List (String × JsVal) :=
  b.foldl (fun acc kv => mapSet acc kv.1 kv.2) a

/-- `handleOntimePayload`: `localData = { ...localData, ...payload }`. -/
def handleOntimePayload (localData payload : List (String × JsVal)) :
    List (String × JsVal) :=
  spreadMerge localData payload

/-- The `websocket.onmessage` handler, restricted to its effect on
`localData`: only messages tagged `"runtime-data"` are acted upon. -/
def onmessage (localData : List (String × JsVal)) (tag : String)
    (payload : List (String × JsVal)) : List (String × JsVal) :=
  if tag = "runtime-data" then handleOntimePayload localData payload else localData

/-! ### Threshold input handler -/

/-- `parseInt(str, 10)`: skip leading whitespace, take an optional
sign and then the longest digit run; no digits means `NaN` (`none`). -/
def parseIntBase10 (s : String) : Option Int :=
  let cs := s.data.dropWhile Char.isWhitespace
  match cs with
  | '-' :: rest =>
    let ds := rest.takeWhile Char.isDigit
    if ds = [] then none else some (-(decimalVal ds : Int))
  | '+' :: rest =>
    let ds := rest.takeWhile Char.isDigit
    if ds = [] then none else some (decimalVal ds : Int)
  | _ =>
    let ds := cs.takeWhile Char.isDigit
    if ds = [] then none else some (decimalVal ds : Int)

/-- The threshold-change handler value:
`config.threshold = parseInt(e.target.value, 10) || 10`. `NaN` and `0`
are both falsy, so both fall back to the default `10`. -/
def thresholdFromInput (s : String) : Int :=
  match parseIntBase10 s with
  | none => 10
  | some v => if v = 0 then 10 else v

/-! ### Field removal -/

/-- The remove-field click handler: `monitoredFields.delete(fieldKey);
previousValues.delete(fieldKey)` — note the cache delete uses the bare
field key, not a composite key. -/
def removeField (monitoredFields : List (String × MonitorConfig))
    (previousValues : List (String × JsVal)) (fieldKey : String) :
    List (String × MonitorConfig) × List (String × JsVal) :=
  (mapDelete monitoredFields fieldKey, mapDelete previousValues fieldKey)

/-! ### Lemmas about the map model -/

theorem mapGet_mapSet_same {α : Type} (m : List (String × α)) (k : String) (v : α) :
    mapGet (mapSet m k v) k = some v := by
  induction m with
  | nil => simp [mapSet, mapGet]
  | cons p rest ih =>
    obtain ⟨k0, w⟩ := p
    by_cases h : k0 = k
    · simp [mapSet, h, mapGet]
    · simp [mapSet, h, mapGet, ih]

theorem mapGet_mapSet_ne {α : Type} (m : List (String × α)) (k k' : String) (v : α)
    (h : k ≠ k') : mapGet (mapSet m k v) k' = mapGet m k' := by
  induction m with
  | nil => simp [mapSet, mapGet, h]
  | cons p rest ih =>
    obtain ⟨k0, w⟩ := p
    by_cases h0 : k0 = k
    · subst h0
      simp [mapSet, mapGet, h]
    · simp [mapSet, h0, mapGet, ih]

theorem mapGet_eq_none_of_not_mem {α : Type} (m : List (String × α)) (k : String)
    (h : k ∉ m.map Prod.fst) : mapGet m k = none := by
  induction m with
  | nil => rfl
  | cons p rest ih =>
    obtain ⟨k0, w⟩ := p
    simp only [List.map_cons, List.mem_cons, not_or] at h
    have h0 : k0 ≠ k := fun he => h.1 he.symm
    simp [mapGet, h0, ih h.2]

theorem mapGet_mapDelete_ne {α : Type} (m : List (String × α)) (k k' : String)
    (h : k' ≠ k) : mapGet (mapDelete m k) k' = mapGet m k' := by
  induction m with
  | nil => rfl
  | cons p rest ih =>
    obtain ⟨k0, w⟩ := p
    by_cases h0 : k0 = k
    · subst h0
      have h1 : k0 ≠ k' := fun he => h he.symm
      simp [mapDelete, mapGet, h1]
    · simp only [mapDelete, if_neg h0]
      by_cases h1 : k0 = k'
      · simp [mapGet, h1]
      · simp [mapGet, h1, ih]

theorem mapGet_mapDelete_self {α : Type} (m : List (String × α)) (k : String)
    (h : (m.map Prod.fst).Nodup) : mapGet (mapDelete m k) k = none := by
  induction m with
  | nil => rfl
  | cons p rest ih =>
    obtain ⟨k0, w⟩ := p
    simp only [List.map_cons, List.nodup_cons] at h
    by_cases h0 : k0 = k
    · subst h0
      simp only [mapDelete, if_pos rfl]
      exact mapGet_eq_none_of_not_mem rest k0 h.1
    · simp [mapDelete, h0, mapGet, ih h.2]

/-- The lookup a shallow merge produces: the primary map wins when it
has the key, otherwise the fallback value applies. -/
def mergeLookup {α : Type} (primary fallback : Option α) : Option α :=
  match primary with
  | some v => some v
  | none => fallback

theorem mapGet_foldl_mapSet {α : Type} (l : List (String × α)) (acc : List (String × α))
    (k : String) (h : (l.map Prod.fst).Nodup) :
    mapGet (l.foldl (fun a p => mapSet a p.1 p.2) acc) k =
      mergeLookup (mapGet l k) (mapGet acc k) := by
  induction l generalizing acc with
  | nil => simp [mapGet, mergeLookup]
  | cons p rest ih =>
    obtain ⟨k0, v0⟩ := p
    simp only [List.map_cons, List.nodup_cons] at h
    rw [List.foldl_cons, ih (mapSet acc k0 v0) h.2]
    by_cases hk : k0 = k
    · subst hk
      rw [mapGet_eq_none_of_not_mem rest k0 h.1]
      simp [mapGet, mergeLookup, mapGet_mapSet_same]
    · simp only [mapGet, if_neg hk]
      cases hrest : mapGet rest k with
      | none => simp [mergeLookup, mapGet_mapSet_ne acc k0 k v0 hk]
      | some v => simp [mergeLookup]

theorem mapSet_append {α : Type} (acc : List (String × α)) (k : String) (v : α)
    (h : k ∉ acc.map Prod.fst) : mapSet acc k v = acc ++ [(k, v)] := by
  induction acc with
  | nil => rfl
  | cons p rest ih =>
    obtain ⟨k0, w⟩ := p
    simp only [List.map_cons, List.mem_cons, not_or] at h
    have h0 : k0 ≠ k := fun he => h.1 he.symm
    simp [mapSet, h0, ih h.2]

theorem foldl_mapSet_eq_append {α : Type} (l : List (String × α)) :
    ∀ acc : List (String × α), (∀ x ∈ l.map Prod.fst, x ∉ acc.map Prod.fst) →
      (l.map Prod.fst).Nodup → l.foldl (fun a p => mapSet a p.1 p.2) acc = acc ++ l := by
  induction l with
  | nil => intro acc _ _; simp
  | cons p rest ih =>
    intro acc hdis h
    obtain ⟨k0, v0⟩ := p
    simp only [List.map_cons, List.nodup_cons] at h
    rw [List.foldl_cons, mapSet_append acc k0 v0 (hdis k0 (by simp))]
    rw [ih (acc ++ [(k0, v0)]) ?_ h.2]
    · simp
    · intro x hx
      have hx' : x ∈ ((k0, v0) :: rest).map Prod.fst := by simp [hx]
      intro hmem
      simp only [List.map_append, List.mem_append] at hmem
      rcases hmem with hacc | hone
      · exact hdis x hx' hacc
      · have hxk0 : x = k0 := by simpa using hone
        subst hxk0
        exact h.1 hx

/-- With unique keys (true of every JS `Map`), writing the entries into
an empty object in order reproduces the entries. -/
theorem saveConfiguration_eq_self (m : List (String × MonitorConfig))
    (h : (m.map Prod.fst).Nodup) : saveConfiguration m = m := by
  unfold saveConfiguration
  rw [foldl_mapSet_eq_append m [] (by simp) h]
  simp

theorem loadSavedConfiguration_cons (catalog : List String) (k0 : String)
    (v0 : MonitorConfig) (rest : List (String × MonitorConfig))
    (acc : List (String × MonitorConfig)) :
    loadSavedConfiguration catalog ((k0, v0) :: rest) acc =
      loadSavedConfiguration catalog rest
        (if catalog.contains k0 then mapSet acc k0 v0 else acc) := rfl

theorem mapGet_loadSavedConfiguration (catalog : List String)
    (stored : List (String × MonitorConfig)) (acc : List (String × MonitorConfig))
    (k : String) (h : (stored.map Prod.fst).Nodup) :
    mapGet (loadSavedConfiguration catalog stored acc) k =
      match mapGet stored k with
      | some v => if catalog.contains k then some v else mapGet acc k
      | none => mapGet acc k := by
  induction stored generalizing acc with
  | nil => rfl
  | cons p rest ih =>
    obtain ⟨k0, v0⟩ := p
    simp only [List.map_cons, List.nodup_cons] at h
    rw [loadSavedConfiguration_cons, ih _ h.2]
    by_cases hk : k0 = k
    · subst hk
      rw [mapGet_eq_none_of_not_mem rest k0 h.1]
      by_cases hc : k0 ∈ catalog
      · simp [mapGet, hc, mapGet_mapSet_same]
      · simp [mapGet, hc]
    · simp only [mapGet, if_neg hk]
      cases hrest : mapGet rest k with
      | none =>
        by_cases hc : k0 ∈ catalog
        · simp [hc, mapGet_mapSet_ne acc k0 k v0 hk]
        · simp [hc]
      | some v =>
        by_cases hck : k ∈ catalog
        · simp [hck]
        · by_cases hc : k0 ∈ catalog
          · simp [hck, hc, mapGet_mapSet_ne acc k0 k v0 hk]
          · simp [hck, hc]

/-- C6: round-trip of the monitoring configuration. Persisting a
`monitoredFields` mapping with `saveConfiguration` and reloading it with
`loadSavedConfiguration` under an unchanged field catalog yields the
identical mapping restricted to keys still present in the catalog;
stale keys are silently dropped. -/
theorem saveConfiguration_loadSavedConfiguration_roundTrip
    (m : List (String × MonitorConfig)) (catalog : List String) (k : String)
    (h : (m.map Prod.fst).Nodup) :
    mapGet (loadSavedConfiguration catalog (saveConfiguration m) []) k =
      if catalog.contains k then mapGet m k else none := by
  rw [saveConfiguration_eq_self m h, mapGet_loadSavedConfiguration catalog m [] k h]
  cases hm : mapGet m k with
  | none => simp [mapGet]
  | some v => simp [mapGet]

/-- Witness for C6 at a concrete configuration: a stale key `"b"` is
dropped, a live key `"a"` survives with its configuration. -/
theorem saveConfiguration_loadSavedConfiguration_roundTrip_witness :
    mapGet (loadSavedConfiguration ["a", "c"]
        (saveConfiguration [("a", ⟨true, 10, "", "en-US"⟩), ("b", ⟨false, 5, "", "en-GB"⟩)]) [])
        "a" = if ["a", "c"].contains "a" then
          mapGet [("a", ⟨true, 10, "", "en-US"⟩), ("b", ⟨false, 5, "", "en-GB"⟩)] "a"
        else none :=
  saveConfiguration_loadSavedConfiguration_roundTrip
    [("a", ⟨true, 10, "", "en-US"⟩), ("b", ⟨false, 5, "", "en-GB"⟩)] ["a", "c"] "a"
    (by decide)

/-- C8: only `"runtime-data"` messages touch the local runtime state,
and their payload is shallow-merged: a key present in the payload
overwrites the local value, a key absent keeps its previous value. -/
theorem onmessage_runtimeData_shallowMerge (localData : List (String × JsVal))
    (tag : String) (payload : List (String × JsVal)) (k : String)
    (h : (payload.map Prod.fst).Nodup) :
    (tag ≠ "runtime-data" → onmessage localData tag payload = localData) ∧
    (tag = "runtime-data" →
      mapGet (onmessage localData tag payload) k =
        mergeLookup (mapGet payload k) (mapGet localData k)) := by
  constructor
  · intro hne
    simp [onmessage, hne]
  · intro heq
    simp only [onmessage, if_pos heq, handleOntimePayload, spreadMerge]
    exact mapGet_foldl_mapSet payload localData k h

/-- Witness for C8 at a concrete message: a `"runtime-data"` payload
overwrites `eventNow` and keeps `eventNext`; a message with another tag
is ignored. -/
theorem onmessage_runtimeData_shallowMerge_witness :
    (onmessage [("eventNow", JsVal.nonStr 1)] "ontime-log" [("eventNow", JsVal.nonStr 2)]
        = [("eventNow", JsVal.nonStr 1)]) ∧
    mapGet (onmessage [("eventNow", JsVal.nonStr 1), ("eventNext", JsVal.nonStr 3)]
        "runtime-data" [("eventNow", JsVal.nonStr 2)]) "eventNext" =
      mergeLookup (mapGet [("eventNow", JsVal.nonStr 2)] "eventNext")
        (mapGet [("eventNow", JsVal.nonStr 1), ("eventNext", JsVal.nonStr 3)] "eventNext") :=
  ⟨(onmessage_runtimeData_shallowMerge [("eventNow", JsVal.nonStr 1)] "ontime-log"
      [("eventNow", JsVal.nonStr 2)] "eventNow" (by decide)).1 (by decide),
   (onmessage_runtimeData_shallowMerge [("eventNow", JsVal.nonStr 1), ("eventNext", JsVal.nonStr 3)]
      "runtime-data" [("eventNow", JsVal.nonStr 2)] "eventNext" (by decide)).2 rfl⟩

/-! ### Monitoring-engine lemmas (C2, C3) -/

/-- Whenever a change is observed (monitored, enabled, raw value differs
from the cached one), the cache is updated to the new raw value before
any parsing or threshold logic runs, so the updated cache is the result
in every branch. -/
theorem checkOneField_fst_of_changed (monitoredFields : List (String × MonitorConfig))
    (eventId : String) (previousValues : List (String × JsVal)) (fieldKey : String)
    (fieldValue : JsVal) (config : MonitorConfig)
    (hmon : mapGet monitoredFields fieldKey = some config)
    (hen : config.enabled = true)
    (hne : mapGet previousValues (uniqueKey eventId fieldKey) ≠ some fieldValue) :
    (checkOneField monitoredFields eventId previousValues fieldKey fieldValue).1 =
      mapSet previousValues (uniqueKey eventId fieldKey) fieldValue := by
  unfold checkOneField
  rw [hmon]
  simp only [hen, Bool.not_true, Bool.false_eq_true, if_false, if_neg hne]
  cases fieldValue with
  | nonStr i => rfl
  | str s =>
    by_cases hs : s = ""
    · simp [hs]
    · simp only [if_neg hs]
      cases hp : parseTimeToSeconds (JsVal.str s) with
      | none => rfl
      | some seconds =>
        by_cases ht : seconds > config.threshold
        · simp [ht]
        · simp [ht]

/-- C2: for an enabled monitored field whose changed value parses to
`seconds`, the engine hands a dispatcher call to `speakValue` exactly
when `seconds` is at or below the configured threshold; a value
strictly above the threshold is skipped. -/
theorem checkOneField_threshold_boundary (monitoredFields : List (String × MonitorConfig))
    (eventId : String) (previousValues : List (String × JsVal)) (fieldKey : String)
    (s : String) (config : MonitorConfig) (seconds : Nat)
    (hmon : mapGet monitoredFields fieldKey = some config)
    (hen : config.enabled = true)
    (hne : mapGet previousValues (uniqueKey eventId fieldKey) ≠ some (JsVal.str s))
    (hparse : parseTimeToSeconds (JsVal.str s) = some seconds) :
    (checkOneField monitoredFields eventId previousValues fieldKey (JsVal.str s)).2 =
      if seconds ≤ config.threshold then some ⟨fieldKey, seconds, config⟩ else none := by
  have hs : s ≠ "" := by
    intro h
    rw [h] at hparse
    simp [parseTimeToSeconds] at hparse
  unfold checkOneField
  rw [hmon]
  simp only [hen, Bool.not_true, Bool.false_eq_true, if_false, if_neg hne, if_neg hs, hparse]
  by_cases ht : seconds > config.threshold
  · simp only [if_pos ht, if_neg (by omega : ¬seconds ≤ config.threshold)]
  · simp only [if_neg ht, if_pos (by omega : seconds ≤ config.threshold)]

/-- Witness for C2 at the spec scenarios: threshold 10, value "00:10"
triggers with 10 seconds; value "00:11" is skipped. -/
theorem checkOneField_threshold_boundary_witness :
    (checkOneField [("t1", ⟨true, 10, "", "en-US"⟩)] "current" [] "t1" (JsVal.str "00:10")).2 =
      (if 10 ≤ (10 : Nat) then some ⟨"t1", 10, ⟨true, 10, "", "en-US"⟩⟩ else none) ∧
    (checkOneField [("t1", ⟨true, 10, "", "en-US"⟩)] "current" [] "t1" (JsVal.str "00:11")).2 =
      (if 11 ≤ (10 : Nat) then some ⟨"t1", 11, ⟨true, 10, "", "en-US"⟩⟩ else none) :=
  ⟨checkOneField_threshold_boundary [("t1", ⟨true, 10, "", "en-US"⟩)] "current" [] "t1"
      "00:10" ⟨true, 10, "", "en-US"⟩ 10 (by decide) rfl (by decide) (by decide),
   checkOneField_threshold_boundary [("t1", ⟨true, 10, "", "en-US"⟩)] "current" [] "t1"
      "00:11" ⟨true, 10, "", "en-US"⟩ 11 (by decide) rfl (by decide) (by decide)⟩

/-- C3: processing the same raw value twice in a row for the same
composite (event id paired with field key) is idempotent — the second
delivery changes nothing and emits no dispatcher call — and on any
observed change the cache entry is updated unconditionally, even when
the new value is a non-string, unparsable, or above threshold. -/
theorem checkOneField_idempotent (id : Option String) (eventType : String)
    (monitoredFields : List (String × MonitorConfig))
    (previousValues : List (String × JsVal)) (fieldKey : String) (fieldValue : JsVal) :
    (checkOneField monitoredFields (eventIdFor id eventType)
        (checkOneField monitoredFields (eventIdFor id eventType) previousValues
          fieldKey fieldValue).1 fieldKey fieldValue =
      ((checkOneField monitoredFields (eventIdFor id eventType) previousValues
          fieldKey fieldValue).1, none)) ∧
    (∀ config : MonitorConfig,
      mapGet monitoredFields fieldKey = some config → config.enabled = true →
      mapGet previousValues (uniqueKey (eventIdFor id eventType) fieldKey) ≠ some fieldValue →
      mapGet (checkOneField monitoredFields (eventIdFor id eventType) previousValues
          fieldKey fieldValue).1 (uniqueKey (eventIdFor id eventType) fieldKey) =
        some fieldValue) := by
  constructor
  · cases hmon : mapGet monitoredFields fieldKey with
    | none =>
      have h1 : checkOneField monitoredFields (eventIdFor id eventType) previousValues
          fieldKey fieldValue = (previousValues, none) := by
        unfold checkOneField
        rw [hmon]
      rw [h1]
      unfold checkOneField
      rw [hmon]
    | some config =>
      by_cases hen : config.enabled
      · by_cases hc : mapGet previousValues (uniqueKey (eventIdFor id eventType) fieldKey)
            = some fieldValue
        · have h1 : checkOneField monitoredFields (eventIdFor id eventType) previousValues
              fieldKey fieldValue = (previousValues, none) := by
            unfold checkOneField
            rw [hmon]
            simp [hen, hc]
          rw [h1]
          unfold checkOneField
          rw [hmon]
          simp [hen, hc]
        · have h1 := checkOneField_fst_of_changed monitoredFields (eventIdFor id eventType)
            previousValues fieldKey fieldValue config hmon hen hc
          rw [h1]
          unfold checkOneField
          rw [hmon]
          simp [hen, mapGet_mapSet_same]
      · have hen' : config.enabled = false := by
          cases he : config.enabled
          · rfl
          · exact absurd he hen
        have h1 : checkOneField monitoredFields (eventIdFor id eventType) previousValues
            fieldKey fieldValue = (previousValues, none) := by
          unfold checkOneField
          rw [hmon]
          simp [hen']
        rw [h1]
        unfold checkOneField
        rw [hmon]
        simp [hen']
  · intro config hmon hen hne
    rw [checkOneField_fst_of_changed monitoredFields (eventIdFor id eventType)
      previousValues fieldKey fieldValue config hmon hen hne]
    exact mapGet_mapSet_same previousValues (uniqueKey (eventIdFor id eventType) fieldKey)
      fieldValue

/-- Witness for C3 at a concrete run: an unparsable changed value for
the id-less current event updates the cache and a repeat delivery is a
no-op. -/
theorem checkOneField_idempotent_witness :
    (checkOneField [("t1", ⟨true, 10, "", "en-US"⟩)] (eventIdFor none "current")
        (checkOneField [("t1", ⟨true, 10, "", "en-US"⟩)] (eventIdFor none "current") []
          "t1" (JsVal.str "oops")).1 "t1" (JsVal.str "oops") =
      ((checkOneField [("t1", ⟨true, 10, "", "en-US"⟩)] (eventIdFor none "current") []
          "t1" (JsVal.str "oops")).1, none)) ∧
    mapGet (checkOneField [("t1", ⟨true, 10, "", "en-US"⟩)] (eventIdFor none "current") []
        "t1" (JsVal.str "oops")).1 (uniqueKey (eventIdFor none "current") "t1") =
      some (JsVal.str "oops") :=
  ⟨(checkOneField_idempotent none "current" [("t1", ⟨true, 10, "", "en-US"⟩)] []
      "t1" (JsVal.str "oops")).1,
   (checkOneField_idempotent none "current" [("t1", ⟨true, 10, "", "en-US"⟩)] []
      "t1" (JsVal.str "oops")).2 ⟨true, 10, "", "en-US"⟩ (by decide) rfl (by decide)⟩

/-! ### Speech-gate invariant (C4) -/

/-- The inductive invariant of the dispatcher: at most one utterance is
in flight, and the gate being free means nothing is in flight. -/
def SpeechInv (s : SpeechState) : Prop :=
  s.inFlight ≤ 1 ∧ (s.isSpeaking = false → s.inFlight = 0)

theorem speechStep_inv (s : SpeechState) (e : SpeechEvent) (h : SpeechInv s) :
    SpeechInv (speechStep s e) := by
  obtain ⟨h1, h2⟩ := h
  cases e with
  | call available =>
    by_cases ha : available
    · by_cases hs : s.isSpeaking
      · simp only [speechStep, ha, Bool.not_true, Bool.false_eq_true, if_false, hs, if_true]
        exact ⟨h1, h2⟩
      · simp only [Bool.not_eq_true] at hs
        simp [speechStep, ha, hs, SpeechInv, h2 hs]
    · simp only [Bool.not_eq_true] at ha
      simp only [speechStep, ha, Bool.not_false, if_true]
      exact ⟨h1, h2⟩
  | timerFire throws =>
    by_cases hp : s.pendingTimers = 0
    · simp only [speechStep, hp, if_true, if_pos rfl]
      exact ⟨h1, h2⟩
    · by_cases hs : s.isSpeaking
      · simp [speechStep, hp, hs, SpeechInv, h1, h2]
      · simp only [Bool.not_eq_true] at hs
        by_cases ht : throws
        · simp [speechStep, hp, hs, ht, SpeechInv, h1, h2]
        · simp only [Bool.not_eq_true] at ht
          simp [speechStep, hp, hs, ht, SpeechInv, h2 hs]
  | utteranceDone =>
    by_cases hf : s.inFlight = 0
    · simp [speechStep, hf, SpeechInv, h1, h2]
    · simp only [speechStep, if_neg hf, SpeechInv]
      omega
  | ttsToggleOff => simp [speechStep, SpeechInv]

theorem foldl_speechStep_inv (events : List SpeechEvent) :
    ∀ s : SpeechState, SpeechInv s → SpeechInv (events.foldl speechStep s) := by
  induction events with
  | nil => intro s h; exact h
  | cons e rest ih =>
    intro s h
    rw [List.foldl_cons]
    exact ih (speechStep s e) (speechStep_inv s e h)

/-- C4: along every interleaving of dispatcher events starting from page
load, at most one utterance is ever in flight; a `speakValue` call with
no engine, or with the gate already held at entry, changes nothing (in
particular nothing is queued); and a scheduled timer callback that finds
the gate held at the re-check only consumes the timer, acquiring nothing
and starting no utterance. -/
theorem speakValue_single_utterance :
    (∀ events : List SpeechEvent, (speechRun events).inFlight ≤ 1) ∧
    (∀ s : SpeechState, speechStep s (SpeechEvent.call false) = s) ∧
    (∀ (s : SpeechState) (available : Bool), s.isSpeaking = true →
      speechStep s (SpeechEvent.call available) = s) ∧
    (∀ (s : SpeechState) (throws : Bool), s.isSpeaking = true →
      speechStep s (SpeechEvent.timerFire throws) =
        { s with pendingTimers := s.pendingTimers - 1 }) := by
  refine ⟨?_, ?_, ?_, ?_⟩
  · intro events
    exact (foldl_speechStep_inv events initSpeechState (by simp [SpeechInv, initSpeechState])).1
  · intro s
    simp [speechStep]
  · intro s available hs
    by_cases ha : available
    · simp [speechStep, ha, hs]
    · simp only [Bool.not_eq_true] at ha
      simp [speechStep, ha]
  · intro s throws hs
    obtain ⟨sp, pt, fl⟩ := s
    simp only at hs
    subst hs
    by_cases hp : pt = 0
    · subst hp
      simp [speechStep]
    · simp [speechStep, hp]

/-- Witness for C4 at a concrete trace: two overlapping calls and both
timer callbacks leave at most one utterance in flight, and concrete
gate-held states drop the call and the timer acquisition. -/
theorem speakValue_single_utterance_witness :
    (speechRun [SpeechEvent.call true, SpeechEvent.call true,
        SpeechEvent.timerFire false, SpeechEvent.timerFire false]).inFlight ≤ 1 ∧
    speechStep ⟨true, 1, 1⟩ (SpeechEvent.call true) = ⟨true, 1, 1⟩ ∧
    speechStep ⟨true, 1, 1⟩ (SpeechEvent.timerFire false) = ⟨true, 0, 1⟩ :=
  ⟨speakValue_single_utterance.1 [SpeechEvent.call true, SpeechEvent.call true,
      SpeechEvent.timerFire false, SpeechEvent.timerFire false],
   speakValue_single_utterance.2.2.1 ⟨true, 1, 1⟩ true rfl,
   speakValue_single_utterance.2.2.2 ⟨true, 1, 1⟩ false rfl⟩

/-! ### Parser theorems (C1, C5) -/

theorem str_ne_empty_of_trim_cons (str : String) (c : Char) (cs : List Char)
    (h : trimChars str.data = c :: cs) : str ≠ "" := by
  intro h0
  subst h0
  simp [trimChars] at h

/-- C1 (amended): every string whose trimmed form is 1-2 hour digits,
a colon, two minute digits, a colon and two second digits parses to
`hours*3600 + minutes*60 + seconds`; every string whose trimmed form is
1-2 minute digits, a colon and two second digits parses to
`minutes*60 + seconds`; no upper bound is enforced on the digit values,
so `"1:99"` parses to `159` seconds. -/
theorem parseTimeToSeconds_grammar :
    (∀ (str : String) (hd mm ss : List Char),
        (hd.length = 1 ∨ hd.length = 2) → (∀ c ∈ hd, c.isDigit = true) →
        mm.length = 2 → (∀ c ∈ mm, c.isDigit = true) →
        ss.length = 2 → (∀ c ∈ ss, c.isDigit = true) →
        trimChars str.data = hd ++ ':' :: (mm ++ ':' :: ss) →
        parseTimeToSeconds (JsVal.str str) =
          some (decimalVal hd * 3600 + decimalVal mm * 60 + decimalVal ss)) ∧
    (∀ (str : String) (md sd : List Char),
        (md.length = 1 ∨ md.length = 2) → (∀ c ∈ md, c.isDigit = true) →
        sd.length = 2 → (∀ c ∈ sd, c.isDigit = true) →
        trimChars str.data = md ++ ':' :: sd →
        parseTimeToSeconds (JsVal.str str) =
          some (decimalVal md * 60 + decimalVal sd)) ∧
    parseTimeToSeconds (JsVal.str "1:99") = some 159 := by
  refine ⟨?_, ?_, by decide⟩
  · intro str hd mm ss hhd hddig hmm hmmdig hss hssdig htrim
    obtain ⟨m1, m2, rfl⟩ := List.length_eq_two.mp hmm
    obtain ⟨s1, s2, rfl⟩ := List.length_eq_two.mp hss
    rcases hhd with h1 | h2
    · obtain ⟨a, rfl⟩ := List.length_eq_one.mp h1
      simp only [List.cons_append, List.nil_append] at htrim
      have hne := str_ne_empty_of_trim_cons str _ _ htrim
      have hm : matchTimePattern (trimChars str.data) =
          some (TimeMatch.hms (charDigit a) (10 * charDigit m1 + charDigit m2)
            (10 * charDigit s1 + charDigit s2)) := by
        rw [htrim]
        simp [matchTimePattern, hddig a (by simp), hmmdig m1 (by simp),
          hmmdig m2 (by simp), hssdig s1 (by simp), hssdig s2 (by simp)]
      simp only [parseTimeToSeconds, if_neg hne, hm]
      simp [decimalVal]
    · obtain ⟨a, b, rfl⟩ := List.length_eq_two.mp h2
      simp only [List.cons_append, List.nil_append] at htrim
      have hne := str_ne_empty_of_trim_cons str _ _ htrim
      have hm : matchTimePattern (trimChars str.data) =
          some (TimeMatch.hms (10 * charDigit a + charDigit b)
            (10 * charDigit m1 + charDigit m2) (10 * charDigit s1 + charDigit s2)) := by
        rw [htrim]
        simp [matchTimePattern, hddig a (by simp), hddig b (by simp),
          hmmdig m1 (by simp), hmmdig m2 (by simp), hssdig s1 (by simp),
          hssdig s2 (by simp)]
      simp only [parseTimeToSeconds, if_neg hne, hm]
      simp [decimalVal]
  · intro str md sd hmd hmddig hsd hsddig htrim
    obtain ⟨s1, s2, rfl⟩ := List.length_eq_two.mp hsd
    rcases hmd with h1 | h2
    · obtain ⟨a, rfl⟩ := List.length_eq_one.mp h1
      simp only [List.cons_append, List.nil_append] at htrim
      have hne := str_ne_empty_of_trim_cons str _ _ htrim
      have hm : matchTimePattern (trimChars str.data) =
          some (TimeMatch.ms (charDigit a) (10 * charDigit s1 + charDigit s2)) := by
        rw [htrim]
        simp [matchTimePattern, hmddig a (by simp), hsddig s1 (by simp),
          hsddig s2 (by simp)]
      simp only [parseTimeToSeconds, if_neg hne, hm]
      simp [decimalVal]
    · obtain ⟨a, b, rfl⟩ := List.length_eq_two.mp h2
      simp only [List.cons_append, List.nil_append] at htrim
      have hne := str_ne_empty_of_trim_cons str _ _ htrim
      have hm : matchTimePattern (trimChars str.data) =
          some (TimeMatch.ms (10 * charDigit a + charDigit b)
            (10 * charDigit s1 + charDigit s2)) := by
        rw [htrim]
        simp [matchTimePattern, hmddig a (by simp), hmddig b (by simp),
          hsddig s1 (by simp), hsddig s2 (by simp)]
      simp only [parseTimeToSeconds, if_neg hne, hm]
      simp [decimalVal]

/-- Witness for C1 at concrete strings: `" 1:23:45 "` and `"12:34"`. -/
theorem parseTimeToSeconds_grammar_witness :
    parseTimeToSeconds (JsVal.str " 1:23:45 ") =
      some (decimalVal ['1'] * 3600 + decimalVal ['2', '3'] * 60 + decimalVal ['4', '5']) ∧
    parseTimeToSeconds (JsVal.str "12:34") =
      some (decimalVal ['1', '2'] * 60 + decimalVal ['3', '4']) :=
  ⟨parseTimeToSeconds_grammar.1 " 1:23:45 " ['1'] ['2', '3'] ['4', '5'] (Or.inl rfl)
      (by decide) rfl (by decide) rfl (by decide) (by decide),
   parseTimeToSeconds_grammar.2.1 "12:34" ['1', '2'] ['3', '4'] (Or.inr rfl)
      (by decide) rfl (by decide) (by decide)⟩

/-- Counterexample to C1 as stated: the claim says `"1:99"` parses to
`99` seconds, but the code computes `minutes*60 + seconds = 159`. -/
theorem parseTimeToSeconds_one99_counterexample :
    parseTimeToSeconds (JsVal.str "1:99") = some 159 ∧
    parseTimeToSeconds (JsVal.str "1:99") ≠ some 99 := by decide

/-- C5: a non-string input, and every string whose trimmed character
list matches neither alternative of the time regex, yields the no-value
result `none`; the parser is a total function, so no input can make it
throw. -/
theorem parseTimeToSeconds_invalid (i : Nat) :
    parseTimeToSeconds (JsVal.nonStr i) = none ∧
    ∀ s : String, matchTimePattern (trimChars s.data) = none →
      parseTimeToSeconds (JsVal.str s) = none := by
  refine ⟨rfl, ?_⟩
  intro s h
  by_cases hs : s = ""
  · subst hs
    rfl
  · simp only [parseTimeToSeconds, if_neg hs, h]

/-- Witness for C5 at concrete inputs: a non-string value, a malformed
string, and the single-digit-seconds scenario `"1:5"`. -/
theorem parseTimeToSeconds_invalid_witness :
    parseTimeToSeconds (JsVal.nonStr 0) = none ∧
    parseTimeToSeconds (JsVal.str "abc") = none ∧
    parseTimeToSeconds (JsVal.str "1:5") = none :=
  ⟨(parseTimeToSeconds_invalid 0).1,
   (parseTimeToSeconds_invalid 0).2 "abc" (by decide),
   (parseTimeToSeconds_invalid 0).2 "1:5" (by decide)⟩

/-! ### Field-catalog fetch effects (C7) -/

/-- Counterexample to C7 as stated: on a non-2xx response the code
renders the error message but does not populate the add-field dropdown
(only the empty-success branch calls `populateAddFieldDropdown`). -/
theorem loadCustomFields_httpError_counterexample :
    (loadCustomFields (FetchOutcome.httpError 500 "")).dropdownPopulated = false ∧
    (loadCustomFields (FetchOutcome.httpError 500 "")).message.isSome = true := by decide

/-- C7 (amended): an empty result renders an informational message and
still populates the (empty) dropdown; a non-2xx status or a network
error renders a message but leaves the dropdown untouched; no outcome
schedules an automatic retry. -/
theorem loadCustomFields_failure_handling (status : Nat) (body : String)
    (fields : List (String × FieldDef)) :
    ((loadCustomFields (FetchOutcome.success [])).message.isSome = true ∧
      (loadCustomFields (FetchOutcome.success [])).dropdownPopulated = true) ∧
    ((loadCustomFields (FetchOutcome.httpError status body)).message.isSome = true ∧
      (loadCustomFields (FetchOutcome.httpError status body)).dropdownPopulated = false) ∧
    ((loadCustomFields FetchOutcome.networkError).message.isSome = true ∧
      (loadCustomFields FetchOutcome.networkError).dropdownPopulated = false) ∧
    (loadCustomFields (FetchOutcome.success fields)).retried = false ∧
    (loadCustomFields (FetchOutcome.httpError status body)).retried = false ∧
    (loadCustomFields FetchOutcome.networkError).retried = false := by
  refine ⟨⟨rfl, rfl⟩, ⟨rfl, rfl⟩, ⟨rfl, rfl⟩, ?_, rfl, rfl⟩
  unfold loadCustomFields
  by_cases h : fields.length = 0 <;> simp [h]

/-! ### Threshold input handler (C9) -/

/-- Counterexample to C9 as stated: entering `0` in the threshold input
stores the default `10`, not `0`, because `parseInt(...) || 10` treats
the number `0` as falsy. -/
theorem thresholdFromInput_zero_counterexample :
    thresholdFromInput "0" = 10 ∧ ¬thresholdFromInput "0" = 0 := by decide

/-- C9 (amended): a threshold entry parsing to a positive integer `n`
stores `n`; an entry parsing to `0`, like an unparsable entry, falls
back to the default `10`. -/
theorem thresholdFromInput_spec (s : String) (n : Int) :
    (parseIntBase10 s = some n → 0 < n → thresholdFromInput s = n) ∧
    (parseIntBase10 s = some 0 → thresholdFromInput s = 10) ∧
    (parseIntBase10 s = none → thresholdFromInput s = 10) := by
  refine ⟨?_, ?_, ?_⟩
  · intro hp hn
    unfold thresholdFromInput
    rw [hp]
    simp only [if_neg (by omega : ¬n = 0)]
  · intro hp
    unfold thresholdFromInput
    rw [hp]
    simp
  · intro hp
    unfold thresholdFromInput
    rw [hp]

/-- Witness for C9 at concrete entries: `"5"`, `"0"` and the empty
string. -/
theorem thresholdFromInput_spec_witness :
    thresholdFromInput "5" = 5 ∧ thresholdFromInput "0" = 10 ∧ thresholdFromInput "" = 10 :=
  ⟨(thresholdFromInput_spec "5" 5).1 (by decide) (by decide),
   (thresholdFromInput_spec "0" 0).2.1 (by decide),
   (thresholdFromInput_spec "" 0).2.2 (by decide)⟩

/-! ### Field removal and the previous-value cache (C10) -/

theorem eventIdFor_ne_empty (id : Option String) (eventType : String)
    (h : eventType ≠ "") : eventIdFor id eventType ≠ "" := by
  cases id with
  | none => exact h
  | some i =>
    by_cases hi : i = ""
    · simp [eventIdFor, hi, h]
    · simp [eventIdFor, hi]

/-- A composite cache key is strictly longer than the bare field key, so
the two can never collide when the event id is non-empty. -/
theorem uniqueKey_ne_fieldKey (e f : String) (he : e ≠ "") : uniqueKey e f ≠ f := by
  intro h
  have hd : (uniqueKey e f).data = f.data := congrArg String.data h
  rw [uniqueKey, String.data_append, String.data_append] at hd
  have hdash : ("-" : String).data = ['-'] := rfl
  rw [hdash] at hd
  have hne : e.data ≠ [] := by
    intro hdl
    exact he (String.ext hdl)
  have hpos : 0 < e.data.length := List.length_pos.mpr hne
  have hlen := congrArg List.length hd
  simp only [List.length_append, List.length_cons] at hlen
  omega

/-- C10: removing a field deletes its `MonitorConfig` but, because the
remove handler deletes only the bare field key from `previousValues`
while the cache is keyed by `"<eventId>-<fieldKey>"`, every cache entry
for that field survives; after re-adding the field, a delivery of the
unchanged raw value is not a new change and emits no dispatcher call. -/
theorem removeField_cache_intact (monitoredFields : List (String × MonitorConfig))
    (previousValues : List (String × JsVal)) (fieldKey : String) (id : Option String)
    (eventType : String) (v : JsVal) (config2 : MonitorConfig)
    (het : eventType ≠ "") :
    (mapGet (removeField monitoredFields previousValues fieldKey).2
        (uniqueKey (eventIdFor id eventType) fieldKey) =
      mapGet previousValues (uniqueKey (eventIdFor id eventType) fieldKey)) ∧
    ((monitoredFields.map Prod.fst).Nodup →
      mapGet (removeField monitoredFields previousValues fieldKey).1 fieldKey = none) ∧
    (mapGet previousValues (uniqueKey (eventIdFor id eventType) fieldKey) = some v →
      checkOneField
          (mapSet (removeField monitoredFields previousValues fieldKey).1 fieldKey config2)
          (eventIdFor id eventType)
          (removeField monitoredFields previousValues fieldKey).2 fieldKey v =
        ((removeField monitoredFields previousValues fieldKey).2, none)) := by
  have he := eventIdFor_ne_empty id eventType het
  have hkne := uniqueKey_ne_fieldKey (eventIdFor id eventType) fieldKey he
  refine ⟨?_, ?_, ?_⟩
  · exact mapGet_mapDelete_ne previousValues fieldKey
      (uniqueKey (eventIdFor id eventType) fieldKey) hkne
  · intro hnd
    exact mapGet_mapDelete_self monitoredFields fieldKey hnd
  · intro hv
    have hcache : mapGet (mapDelete previousValues fieldKey)
        (uniqueKey (eventIdFor id eventType) fieldKey) = some v := by
      rw [mapGet_mapDelete_ne previousValues fieldKey _ hkne]
      exact hv
    by_cases hen : config2.enabled
    · unfold checkOneField removeField
      rw [mapGet_mapSet_same]
      simp [hen, hcache]
    · simp only [Bool.not_eq_true] at hen
      unfold checkOneField removeField
      rw [mapGet_mapSet_same]
      simp [hen]

/-- Witness for C10 at a concrete state: field `"t1"` on event `"ev1"`
with cached raw value `"00:10"` is removed and re-added; the cache entry
survives and a repeat of `"00:10"` stays silent. -/
theorem removeField_cache_intact_witness :
    (mapGet (removeField [("t1", ⟨true, 10, "", "en-US"⟩)]
        [("ev1-t1", JsVal.str "00:10")] "t1").2
        (uniqueKey (eventIdFor (some "ev1") "current") "t1") =
      mapGet [("ev1-t1", JsVal.str "00:10")]
        (uniqueKey (eventIdFor (some "ev1") "current") "t1")) ∧
    mapGet (removeField [("t1", ⟨true, 10, "", "en-US"⟩)]
        [("ev1-t1", JsVal.str "00:10")] "t1").1 "t1" = none ∧
    checkOneField
        (mapSet (removeField [("t1", ⟨true, 10, "", "en-US"⟩)]
          [("ev1-t1", JsVal.str "00:10")] "t1").1 "t1" ⟨true, 10, "", "en-US"⟩)
        (eventIdFor (some "ev1") "current")
        (removeField [("t1", ⟨true, 10, "", "en-US"⟩)]
          [("ev1-t1", JsVal.str "00:10")] "t1").2 "t1" (JsVal.str "00:10") =
      ((removeField [("t1", ⟨true, 10, "", "en-US"⟩)]
          [("ev1-t1", JsVal.str "00:10")] "t1").2, none) :=
  ⟨(removeField_cache_intact [("t1", ⟨true, 10, "", "en-US"⟩)]
      [("ev1-t1", JsVal.str "00:10")] "t1" (some "ev1") "current"
      (JsVal.str "00:10") ⟨true, 10, "", "en-US"⟩ (by decide)).1,
   (removeField_cache_intact [("t1", ⟨true, 10, "", "en-US"⟩)]
      [("ev1-t1", JsVal.str "00:10")] "t1" (some "ev1") "current"
      (JsVal.str "00:10") ⟨true, 10, "", "en-US"⟩ (by decide)).2.1 (by decide),
   (removeField_cache_intact [("t1", ⟨true, 10, "", "en-US"⟩)]
      [("ev1-t1", JsVal.str "00:10")] "t1" (some "ev1") "current"
      (JsVal.str "00:10") ⟨true, 10, "", "en-US"⟩ (by decide)).2.2 (by decide)⟩

end OntimeTTS
